import Mathlib

/-
Verification development for the Interview_AI backend
(`backend/main.py`, `backend/hr_interview_service.py`, `backend/hr_questions.py`,
`backend/gemini_client.py`).

The relational store is modelled as an explicit record of row lists; every
endpoint or service function becomes a pure function from the store (plus the
request parameters and the outcome of the external AI call, which is an
untrusted input) to the updated store and an `Except`-style response.
Timestamps are natural numbers.  `json.dumps` is modelled as a deterministic
textual rendering: for the properties below only the presence and equality of
the persisted report matter, never its concrete JSON syntax.
-/

deriving instance DecidableEq for Except

/-- Row of the `users` table (`main.py`, class `User`). -/
structure UserRec where
  user_id : String
  email : String
  first_name : Option String
  last_name : Option String
deriving DecidableEq

/-- Row of the `resumes` table (`main.py`, class `Resume`); only the columns the
interview flow reads are kept. -/
structure ResumeRec where
  resume_id : String
  user_id : String
  upload_date : Nat
  job_role : Option String
  raw_text : String
  job_description : Option String
deriving DecidableEq

/-- Row of the `interview_sessions` table (`main.py`, class `InterviewSession`). -/
structure InterviewSessionRec where
  session_id : String
  user_id : String
  start_time : Nat
  end_time : Option Nat
  difficulty : String
  topics_covered : List String
  final_score : Option Int
  final_report : Option String
  status : String
deriving DecidableEq

/-- Row of the `interview_messages` table (`main.py`, class `InterviewMessage`). -/
structure InterviewMessageRec where
  message_id : String
  session_id : String
  role : String
  content : String
  timestamp : Nat
  confidence_score : Option Int
  facial_emotion : Option String
deriving DecidableEq

/-- The relational database underlying all endpoints.  `messages` is kept in
insertion order; every insert stamps the current time, so insertion order
coincides with the `ORDER BY timestamp` the queries use (theorems that depend
on it take an explicit sortedness hypothesis). -/
structure Db where
  users : List UserRec
  resumes : List ResumeRec
  sessions : List InterviewSessionRec
  messages : List InterviewMessageRec
deriving DecidableEq

/-- `db.query(InterviewSession).filter(session_id == sid).first()`. -/
def findSession (db : Db) (sid : String) : Option InterviewSessionRec :=
  db.sessions.find? (fun s => s.session_id == sid)

/-- `db.query(InterviewMessage).filter(session_id == sid).order_by(timestamp)`. -/
def sessionMessages (db : Db) (sid : String) : List InterviewMessageRec :=
  db.messages.filter (fun m => m.session_id == sid)

/-- ORM attribute assignment plus commit on the session row with id `sid`. -/
def updateSession (db : Db) (sid : String) (f : InterviewSessionRec → InterviewSessionRec) : Db :=
  { db with sessions := db.sessions.map (fun s => if s.session_id == sid then f s else s) }

/-- An HTTP error response (`HTTPException(status_code, detail)`). -/
structure HttpError where
  code : Nat
  detail : String
deriving DecidableEq

/-- `ensure_user_exists` (`main.py`): idempotent upsert of the user row. -/
def ensure_user_exists (db : Db) (user_id email : String) : Db :=
  match db.users.find? (fun u => u.user_id == user_id) with
  | some _ => db
  | none => { db with users := db.users ++ [{ user_id := user_id, email := email, first_name := none, last_name := none }] }

/-- `Resume` query of `create_interview_session`: the user's most recently
uploaded resume (`order_by upload_date desc`, `first()`). -/
def latest_resume (resumes : List ResumeRec) (user_id : String) : Option ResumeRec :=
  (resumes.filter (fun r => r.user_id == user_id)).foldl
    (fun acc r => match acc with
      | none => some r
      | some b => if b.upload_date < r.upload_date then some r else some b)
    none

/- ### AI Gateway: ATS scoring (`gemini_client.py`) -/

/-- Shape of the ATS report JSON (`ATSReportSchema`); `match_score` is optional
because the upload endpoint stores `None` when the scan is skipped. -/
structure ATSReport where
  match_score : Option Int
  missing_keywords : List String
  suggestions : List String
deriving DecidableEq

/-- Outcome of the Gemini call inside `get_ats_report`: client construction can
fail, the API call can fail (`APIError`), anything else can fail, or a parsed
report comes back. -/
inductive AtsOutcome
  | clientInitError
  | apiError (e : String)
  | otherError
  | success (r : ATSReport)
deriving DecidableEq

/-- `get_ats_report` (`gemini_client.py`): every failure branch returns a
report-shaped fallback value instead of raising. -/
def get_ats_report (o : AtsOutcome) : ATSReport :=
  match o with
  | AtsOutcome.clientInitError =>
      { match_score := some 0
        missing_keywords := ["AI Service Unavailable"]
        suggestions := ["Please check the backend logs for AI connection errors."] }
  | AtsOutcome.apiError e =>
      { match_score := some 0
        missing_keywords := ["AI Processing Failed"]
        suggestions := ["AI Model failed to generate report. Detail: " ++ e] }
  | AtsOutcome.otherError =>
      { match_score := some 0
        missing_keywords := ["Internal Analysis Error"]
        suggestions := ["An unexpected error occurred on the server during AI processing."] }
  | AtsOutcome.success r => r

/- ### Technical question generation (`main.py`, `generate_question`) -/

/-- Boolean prefix test on character lists. -/
def charListPrefix : List Char → List Char → Bool
  | [], _ => true
  | _ :: _, [] => false
  | c :: cs, d :: ds => c == d && charListPrefix cs ds

/-- Boolean substring test on character lists. -/
def charListInfix (needle : List Char) : List Char → Bool
  | [] => charListPrefix needle []
  | d :: ds => charListPrefix needle (d :: ds) || charListInfix needle ds

/-- Python's `needle in hay` on strings. -/
def str_contains (needle hay : String) : Bool :=
  charListInfix needle.data hay.data

/-- Python's `s.lower()` (ASCII case folding, character by character). -/
def str_lower (s : String) : String :=
  ⟨s.data.map Char.toLower⟩

/-- Shape of a technical interview question
(`{question, category, difficulty, expected_answer_points}`). -/
structure TechQuestion where
  question : String
  category : String
  difficulty : String
  expected_answer_points : List String
deriving DecidableEq

/-- The keyword scan that picks `primary_tech` from the resume text and job
description, defaulting to `"technical"`. -/
def primary_tech (resumeText jobDesc : String) : String :=
  let rl := str_lower resumeText
  let jl := str_lower jobDesc
  match ["python", "javascript", "java", "sql", "react", "node", "aws", "docker"].find?
      (fun t => str_contains t rl || str_contains t jl) with
  | some t => t
  | none => "technical"

/-- The fixed five-template fallback pool of `generate_question`; the first
template interpolates `primary_tech`, and every template carries the session
difficulty. -/
def fallback_questions (primaryTech difficulty : String) : List TechQuestion :=
  [ { question := "Based on your experience with " ++ primaryTech ++ ", describe a challenging project you worked on and how you overcame technical obstacles."
      category := "Project Experience"
      difficulty := difficulty
      expected_answer_points := ["Project scope", "Technical challenges", "Your solution", "Results achieved"] }
  , { question := "How do you approach debugging complex issues in your code? Walk me through your methodology."
      category := "Problem Solving"
      difficulty := difficulty
      expected_answer_points := ["Debugging methodology", "Tools used", "Systematic approach", "Prevention strategies"] }
  , { question := "Explain your experience with version control systems and collaborative development workflows."
      category := "Development Practices"
      difficulty := difficulty
      expected_answer_points := ["Version control usage", "Collaboration experience", "Best practices", "Code review process"] }
  , { question := "Describe a situation where you had to learn a new technology quickly to meet project requirements."
      category := "Learning Ability"
      difficulty := difficulty
      expected_answer_points := ["Learning methodology", "Practical application", "Challenges faced", "Outcome achieved"] }
  , { question := "How do you ensure code quality and maintainability in your projects?"
      category := "Software Engineering"
      difficulty := difficulty
      expected_answer_points := ["Testing strategies", "Code standards", "Documentation", "Refactoring approach"] } ]

/-- Python slice `l[-3:]`: the last three elements (the whole list when it is
shorter). -/
def lastThree (l : List String) : List String :=
  l.drop (l.length - 3)

/-- The filter of `generate_question`: drop every template whose lowercased text
contains one of the last three (lowercased) previous questions as a substring
(`pq in q["question"].lower()`). -/
def availableFallbackQuestions (primaryTech difficulty : String) (previous : List String) : List TechQuestion :=
  let prevTexts := previous.map str_lower
  (fallback_questions primaryTech difficulty).filter
    (fun q => ! (lastThree prevTexts).any (fun pq => str_contains pq (str_lower q.question)))

/-- The list `generate_question` finally indexes into: the filtered templates,
or the full pool when the filter removed everything. -/
def availableFallbackPool (primaryTech difficulty : String) (previous : List String) : List TechQuestion :=
  let avail := availableFallbackQuestions primaryTech difficulty previous
  if avail = [] then fallback_questions primaryTech difficulty else avail

/-- Fallback selection of `generate_question`: the question at cycle index
`len(previous_questions) % len(available_questions)`. -/
def generate_question_fallback (primaryTech difficulty : String) (previous : List String) : Option TechQuestion :=
  let avail2 := availableFallbackPool primaryTech difficulty previous
  avail2[previous.length % avail2.length]?

/-- The hardcoded question the outer exception handler of `generate_question`
returns with status success. -/
def basic_question : TechQuestion :=
  { question := "Tell me about your most relevant technical experience from your resume."
    category := "Technical Experience"
    difficulty := "medium"
    expected_answer_points := ["Technical skills", "Project experience", "Problem-solving approach"] }

/-- Response body of `generate_question`. -/
structure GenerateQuestionOut where
  question : TechQuestion
  message_id : String
  ai_source : String
deriving DecidableEq

/-- `generate_question` endpoint (`main.py`): the AI-provided question (`aiQ`,
`none` on any Gemini failure) is replaced by the deterministic fallback and the
chosen question is appended to the message log as an `ai` message.  The
handler's only `except` clause is a bare `except Exception` with no
`HTTPException` re-raise, so the 404s raised for a missing resume or session —
like any other failure, including the unreachable indexing error — never reach
the caller: they are converted into a success response carrying
`basic_question` with `ai_source` `error_fallback`. -/
def generate_question (sid rid : String) (previous : List String) (aiQ : Option TechQuestion)
    (msgId : String) (now : Nat) (db : Db) : Db × Except HttpError GenerateQuestionOut :=
  match db.resumes.find? (fun r => r.resume_id == rid) with
  | none =>
      (db, Except.ok { question := basic_question, message_id := "fallback-" ++ msgId
                       ai_source := "error_fallback" })
  | some resume =>
    match findSession db sid with
    | none =>
        (db, Except.ok { question := basic_question, message_id := "fallback-" ++ msgId
                         ai_source := "error_fallback" })
    | some s =>
      let chosen := match aiQ with
        | some q => some q
        | none => generate_question_fallback (primary_tech resume.raw_text (resume.job_description.getD "")) s.difficulty previous
      match chosen with
      | some qd =>
          let msg : InterviewMessageRec :=
            { message_id := msgId, session_id := sid, role := "ai", content := qd.question
              timestamp := now, confidence_score := none, facial_emotion := none }
          ({ db with messages := db.messages ++ [msg] },
           Except.ok { question := qd, message_id := msgId
                       ai_source := if aiQ.isSome then "gemini" else "fallback" })
      | none =>
          (db, Except.ok { question := basic_question, message_id := "fallback-" ++ msgId
                           ai_source := "error_fallback" })

/- ### Answer submission (`main.py`, `submit_answer`) -/

/-- Response body of `submit_answer`. -/
structure SubmitAnswerOut where
  message_id : String
deriving DecidableEq

/-- `submit_answer` endpoint (`main.py`): appends a `user` message to the log.
The handler performs no lookup of the session and no check of its status. -/
def submit_answer (sid answer : String) (confidence : Option Int) (emotion : Option String)
    (msgId : String) (now : Nat) (db : Db) : Db × Except HttpError SubmitAnswerOut :=
  let msg : InterviewMessageRec :=
    { message_id := msgId, session_id := sid, role := "user", content := answer
      timestamp := now, confidence_score := confidence, facial_emotion := emotion }
  ({ db with messages := db.messages ++ [msg] }, Except.ok { message_id := msgId })

/- ### Q/A pairing (`hr_interview_service.py` report vs `main.py` report) -/

/-- `questions_asked`: the `ai`-role messages, in log order. -/
def questionsAsked (msgs : List InterviewMessageRec) : List InterviewMessageRec :=
  msgs.filter (fun m => m.role == "ai")

/-- `answers_given`: the `user`-role messages, in log order. -/
def answersGiven (msgs : List InterviewMessageRec) : List InterviewMessageRec :=
  msgs.filter (fun m => m.role == "user")

/-- `next((a for a in answers_given if a.timestamp > question_msg.timestamp), None)`:
the first answer whose timestamp is strictly later than the question's. -/
def findAnswer (answers : List InterviewMessageRec) (q : InterviewMessageRec) : Option InterviewMessageRec :=
  answers.find? (fun a => q.timestamp < a.timestamp)

/-- The Q/A pairing of `generate_hr_interview_report`: each `ai` message is
paired with the first strictly-later `user` message; questions without such an
answer are skipped. -/
def hrQaPairs (msgs : List InterviewMessageRec) : List (String × String) :=
  (questionsAsked msgs).filterMap
    (fun q => (findAnswer (answersGiven msgs) q).map (fun a => (q.content, a.content)))

/-- The Q/A pairing of `generate_interview_report` (`main.py`): walk the log two
messages at a time; within each adjacent pair, the message whose role is
`assistant` is the question (otherwise the second one), and the message whose
role is `user` is the answer (otherwise the first one). -/
def techQaPairs : List InterviewMessageRec → List (String × String)
  | m0 :: m1 :: rest =>
      let questionMsg := if m0.role == "assistant" then m0 else m1
      let answerMsg := if m1.role == "user" then m1 else m0
      (questionMsg.content, answerMsg.content) :: techQaPairs rest
  | _ => []

/- ### HR interview report (`hr_interview_service.py`, `generate_hr_interview_report`) -/

/-- The fallback overall score: `min(85, 60 + len(answers_given) * 5)`. -/
def basic_score (numAnswers : Nat) : Nat :=
  min 85 (60 + numAnswers * 5)

/-- The fixed category offsets of the fallback report. -/
def fallback_category_scores (s : Nat) : List (String × Int) :=
  [ ("Communication Skills", (s : Int) - 5)
  , ("Self-Awareness", (s : Int))
  , ("Problem-Solving Approach", (s : Int) - 10)
  , ("Cultural Fit", (s : Int) + 5)
  , ("Career Motivation", (s : Int)) ]

/-- One of the rotating fallback feedback templates. -/
structure FeedbackTemplate where
  what_went_well : String
  areas_to_improve : String
  better_approach : String
deriving DecidableEq

/-- The eight rotating `feedback_templates` of the fallback report. -/
def feedback_templates : List FeedbackTemplate :=
  [ { what_went_well := "You showed confidence in sharing your experience and maintained good communication throughout your response."
      areas_to_improve := "Try to include more specific metrics or outcomes. For example, instead of saying \x27improved the process,\x27 mention \x27reduced processing time by 30%.\x27"
      better_approach := "Structure your answer with a clear beginning (context), middle (your actions), and end (measurable results). Quantify your impact wherever possible." }
  , { what_went_well := "Your answer demonstrated self-awareness and willingness to learn from experiences."
      areas_to_improve := "Add more concrete examples to illustrate your points. Real scenarios make your answer more memorable and credible."
      better_approach := "Share a specific incident: What was happening? What did you do? What was the outcome? This narrative structure makes answers more engaging." }
  , { what_went_well := "You addressed the question directly and showed understanding of what was being asked."
      areas_to_improve := "Expand on the \x27why\x27 behind your actions. Explain your thought process and what led you to make certain decisions."
      better_approach := "Walk the interviewer through your decision-making: What options did you consider? Why did you choose this path? What did you learn?" }
  , { what_went_well := "You provided relevant information and stayed on topic throughout your response."
      areas_to_improve := "Connect your experience more explicitly to the role you\x27re applying for. Show how this demonstrates skills they need."
      better_approach := "End with a bridge: \x27This experience taught me X, which I believe would help me Y in this role.\x27 Make the relevance crystal clear." }
  , { what_went_well := "You communicated clearly and your answer had a logical flow."
      areas_to_improve := "Include more details about challenges you faced and how you overcame them. Overcoming obstacles shows problem-solving ability."
      better_approach := "Highlight the difficulty: \x27The challenging part was X. I tackled it by Y, which resulted in Z.\x27 This shows resilience and capability." }
  , { what_went_well := "You demonstrated enthusiasm and genuine interest in discussing your experiences."
      areas_to_improve := "Focus on your individual contributions rather than team achievements. Use \x27I\x27 more than \x27we\x27 to clarify your specific role."
      better_approach := "Clarify your role: \x27While working with the team, my specific responsibility was X. I contributed by doing Y, which led to Z.\x27" }
  , { what_went_well := "Your response showed honesty and authenticity, which are valued in interviews."
      areas_to_improve := "Provide more context about the situation. Help the interviewer understand the stakes and complexity of what you were dealing with."
      better_approach := "Set the scene better: \x27This was during [timeframe], when [context]. The challenge was significant because [why it mattered].\x27" }
  , { what_went_well := "You maintained a professional tone and organized your thoughts well before speaking."
      areas_to_improve := "Add emotional intelligence elements: How did you handle stress? How did you manage relationships? Show your soft skills."
      better_approach := "Include the human element: \x27I stayed calm by X. I collaborated with others by Y. This helped build trust and achieve results.\x27" } ]

/-- `feedback_templates[idx % len(feedback_templates)]`. -/
def feedback_template (idx : Nat) : FeedbackTemplate :=
  feedback_templates.get ⟨idx % feedback_templates.length, Nat.mod_lt _ (by decide)⟩

/-- The canned no-improvement phrase of the report prompt, requested of the AI
for per-question scores of 85 and above. -/
def canned_no_improvement : String :=
  "Excellent answer! No major improvements needed - you covered all the key points effectively."

/-- `any(word in question_lower for word in words)`. -/
def containsAnyWord (questionLower : String) (words : List String) : Bool :=
  words.any (fun w => str_contains w questionLower)

/-- The keyword-dispatched `expected` answer rubric of the fallback report:
a fixed priority-ordered list of keyword sets, first match wins. -/
def expected_answer_for (question : String) : String :=
  let ql := str_lower question
  if containsAnyWord ql ["strength", "weakness", "about yourself", "describe"] then
    "An ideal answer should highlight 2-3 genuine strengths/weaknesses with specific examples. Be honest but strategic - show self-awareness and how you\x27re working on improvements. Include real stories that demonstrate these qualities in action."
  else if containsAnyWord ql ["conflict", "disagree", "difficult"] then
    "A strong answer explains the situation objectively, describes how you stayed professional, shows empathy for other perspectives, explains your resolution approach, and highlights the positive outcome or lessons learned. Focus on problem-solving, not blame."
  else if containsAnyWord ql ["failure", "mistake", "wrong"] then
    "An excellent answer owns the mistake honestly, explains what went wrong without excuses, describes what you learned, and shows how you\x27ve applied that lesson since. Demonstrate growth mindset and accountability."
  else if containsAnyWord ql ["why", "company", "role", "position"] then
    "A compelling answer shows you\x27ve researched the company, connects your skills/experience to specific role requirements, mentions company values or culture that resonate with you, and explains how this aligns with your career goals. Show genuine enthusiasm."
  else if containsAnyWord ql ["team", "collaborate", "work with"] then
    "An ideal answer demonstrates your teamwork philosophy, gives a specific example of successful collaboration, shows how you handle different working styles, and highlights both your contributions and how you helped others succeed."
  else if containsAnyWord ql ["pressure", "stress", "deadline", "tight"] then
    "A strong answer explains your stress management strategies, provides a specific high-pressure scenario, describes how you prioritized and stayed organized, shows how you maintained quality under pressure, and includes the successful outcome."
  else if containsAnyWord ql ["goal", "future", "five years", "career"] then
    "An excellent answer shows clear career direction, demonstrates ambition balanced with realism, connects your goals to growth opportunities at this company, and shows you\x27ve thought seriously about your professional development."
  else
    "An ideal answer should be specific and concrete, include relevant examples from your experience, demonstrate the skills or qualities being assessed, show reflection and learning, and connect clearly to the question being asked."

/-- One entry of `question_by_question_feedback`. -/
structure QuestionFeedback where
  question_number : Nat
  question : String
  user_answer : String
  expected_answer : String
  score : Int
  what_went_well : String
  areas_to_improve : String
  better_answer_approach : String
deriving DecidableEq

/-- The fallback `question_feedback` loop: entry `idx` (counting from `start`)
rotates through the eight templates, varies the score by `-(idx % 3) * 5`, and
picks the rubric by keyword scan of the question text.  The per-question score
is never compared with 85. -/
def buildQuestionFeedback (score : Int) : Nat → List (String × String) → List QuestionFeedback
  | _, [] => []
  | idx, qa :: rest =>
      { question_number := idx + 1
        question := qa.1
        user_answer := qa.2
        expected_answer := expected_answer_for qa.1
        score := score - ((idx % 3 : Nat) : Int) * 5
        what_went_well := (feedback_template idx).what_went_well
        areas_to_improve := (feedback_template idx).areas_to_improve
        better_answer_approach := (feedback_template idx).better_approach } ::
      buildQuestionFeedback score (idx + 1) rest

/-- The HR report body (both the AI-generated and the fallback variant share
this shape). -/
structure HrReport where
  session_id : String
  session_type : String
  questions_asked : Nat
  answers_given : Nat
  overall_score : Int
  category_scores : List (String × Int)
  strengths : List String
  weaknesses : List String
  personalized_feedback : String
  recommendations : List String
  question_by_question_feedback : List QuestionFeedback
  completion_rate : Nat
  status : String
deriving DecidableEq

/-- The basic fallback report of `generate_hr_interview_report`, built when the
Gemini key is missing or the AI call failed. -/
def mkFallbackHrReport (sid : String) (qaPairs : List (String × String)) (numAnswers : Nat) : HrReport :=
  let score := basic_score numAnswers
  { session_id := sid
    session_type := "hr_interview"
    questions_asked := qaPairs.length
    answers_given := qaPairs.length
    overall_score := (score : Int)
    category_scores := fallback_category_scores score
    strengths :=
      [ "You completed the entire interview session, demonstrating commitment and perseverance throughout the process."
      , "Your responses showed genuine engagement with the questions and an honest attempt to provide thoughtful answers."
      , "You demonstrated willingness to discuss both achievements and areas for growth, showing self-awareness." ]
    weaknesses :=
      [ "Your answers could benefit from more structure using the STAR method (Situation, Task, Action, Result) to make them clearer and more impactful."
      , "Consider providing more specific examples with concrete details, metrics, and measurable outcomes rather than general statements."
      , "Work on connecting your experiences more explicitly to the skills and qualities the interviewer is looking for in each question." ]
    personalized_feedback :=
      "You successfully completed " ++ toString qaPairs.length ++ " questions in this HR interview. Your responses show that you\x27re making an effort to communicate your experiences, which is a great foundation. To take your interview performance to the next level, focus on structuring your answers using the STAR method - this will help you provide more compelling and memorable responses. Additionally, prepare 3-5 detailed stories from your experience that you can adapt to different behavioral questions. Remember, interviewers want to hear specific examples that demonstrate your skills, not just descriptions of what you can do."
    recommendations :=
      [ "Practice answering common HR questions using the STAR method: Start by writing out 5 key achievement stories with specific Situations, Tasks, Actions, and measurable Results. Rehearse these until they feel natural."
      , "Before your next interview, research the company\x27s values and prepare examples that align with them. Use the \x27CAR\x27 technique: Challenge you faced, Actions you took, and Results you achieved."
      , "Record yourself answering mock interview questions and watch the playback. Look for filler words, unclear structure, and missed opportunities to highlight your impact with specific metrics." ]
    question_by_question_feedback := buildQuestionFeedback (score : Int) 0 qaPairs
    completion_rate := 100
    status := "completed" }

/-- The parsed JSON of a successful AI report call (HR variant). -/
structure HrReportData where
  overall_score : Int
  category_scores : List (String × Int)
  strengths : List String
  weaknesses : List String
  personalized_feedback : String
  recommendations : List String
  question_by_question_feedback : List QuestionFeedback
deriving DecidableEq

/-- Deterministic textual rendering standing in for `json.dumps` on a list of
strings. -/
def encodeStringList (l : List String) : String :=
  String.intercalate "|" l

/-- Rendering of category scores. -/
def encodeCategoryScores (l : List (String × Int)) : String :=
  String.intercalate "|" (l.map (fun c => c.1 ++ "=" ++ toString c.2))

/-- Rendering of one question-feedback entry. -/
def encodeQuestionFeedback (f : QuestionFeedback) : String :=
  toString f.question_number ++ ";" ++ f.question ++ ";" ++ f.user_answer ++ ";" ++
    f.expected_answer ++ ";" ++ toString f.score ++ ";" ++ f.what_went_well ++ ";" ++
    f.areas_to_improve ++ ";" ++ f.better_answer_approach

/-- Rendering of the parsed AI report dict (`json.dumps(report_data)`). -/
def encodeHrReportData (rd : HrReportData) : String :=
  toString rd.overall_score ++ ";" ++ encodeCategoryScores rd.category_scores ++ ";" ++
    encodeStringList rd.strengths ++ ";" ++ encodeStringList rd.weaknesses ++ ";" ++
    rd.personalized_feedback ++ ";" ++ encodeStringList rd.recommendations ++ ";" ++
    encodeStringList (rd.question_by_question_feedback.map encodeQuestionFeedback)

/-- Rendering of the fallback report dict (`json.dumps(report)`). -/
def encodeHrReport (r : HrReport) : String :=
  r.session_id ++ ";" ++ r.session_type ++ ";" ++ toString r.questions_asked ++ ";" ++
    toString r.answers_given ++ ";" ++ toString r.overall_score ++ ";" ++
    encodeCategoryScores r.category_scores ++ ";" ++ encodeStringList r.strengths ++ ";" ++
    encodeStringList r.weaknesses ++ ";" ++ r.personalized_feedback ++ ";" ++
    encodeStringList r.recommendations ++ ";" ++
    encodeStringList (r.question_by_question_feedback.map encodeQuestionFeedback) ++ ";" ++
    toString r.completion_rate ++ ";" ++ r.status

/-- The report body returned on the AI path (same keys as the fallback report,
values taken from the parsed AI data, counts from the reconstructed pairs). -/
def aiHrReportOut (sid : String) (numPairs : Nat) (rd : HrReportData) : HrReport :=
  { session_id := sid
    session_type := "hr_interview"
    questions_asked := numPairs
    answers_given := numPairs
    overall_score := rd.overall_score
    category_scores := rd.category_scores
    strengths := rd.strengths
    weaknesses := rd.weaknesses
    personalized_feedback := rd.personalized_feedback
    recommendations := rd.recommendations
    question_by_question_feedback := rd.question_by_question_feedback
    completion_rate := 100
    status := "completed" }

/-- Outcome of the Gemini call inside `generate_hr_interview_report`: the key
may be missing, the call (or JSON parse) may fail, or a parsed report comes
back. -/
inductive HrAiOutcome
  | noKey
  | aiError (msg : String)
  | success (rd : HrReportData)
deriving DecidableEq

/-- `generate_hr_interview_report` (`hr_interview_service.py`): fetches the
session and its messages, rejects a session with zero `user` messages, pairs
questions with answers, and then — on AI success or via the fallback — sets
`status`, `end_time`, `final_score` and `final_report` together in one commit
and returns the report.  No check of the current status is made, so a second
call regenerates everything. -/
def generate_hr_interview_report (sid : String) (now : Nat) (ai : HrAiOutcome) (db : Db) :
    Db × Except String HrReport :=
  match findSession db sid with
  | none => (db, Except.error "Session not found")
  | some _ =>
    let messages := sessionMessages db sid
    let answers := answersGiven messages
    if answers.length = 0 then
      (db, Except.error "No answers found. Please answer at least one question before generating report.")
    else
      let qaPairs := hrQaPairs messages
      match ai with
      | HrAiOutcome.success rd =>
          (updateSession db sid (fun t =>
             { t with status := "completed", end_time := some now
                      final_score := some rd.overall_score
                      final_report := some (encodeHrReportData rd) }),
           Except.ok (aiHrReportOut sid qaPairs.length rd))
      | _ =>
          let report := mkFallbackHrReport sid qaPairs answers.length
          (updateSession db sid (fun t =>
             { t with status := "completed", end_time := some now
                      final_score := some ((basic_score answers.length : Nat) : Int)
                      final_report := some (encodeHrReport report) }),
           Except.ok report)

/-- `complete_hr_interview` endpoint (`main.py`): any exception from the
service is surfaced as HTTP 500 with the wrapped message. -/
def complete_hr_interview (sid : String) (now : Nat) (ai : HrAiOutcome) (db : Db) :
    Db × Except HttpError HrReport :=
  match generate_hr_interview_report sid now ai db with
  | (db2, Except.ok r) => (db2, Except.ok r)
  | (db2, Except.error e) =>
      (db2, Except.error { code := 500, detail := "Failed to complete HR interview: " ++ e })

/- ### Technical interview report (`main.py`, `generate_interview_report`) -/

/-- The parsed JSON of a successful AI report call (technical variant). -/
structure TechReportData where
  overall_score : Int
  category_scores : List (String × Int)
  strengths : List String
  improvements : List String
  summary : String
deriving DecidableEq

/-- Rendering of the parsed technical report dict. -/
def encodeTechReportData (rd : TechReportData) : String :=
  toString rd.overall_score ++ ";" ++ encodeCategoryScores rd.category_scores ++ ";" ++
    encodeStringList rd.strengths ++ ";" ++ encodeStringList rd.improvements ++ ";" ++ rd.summary

/-- Outcome of the Gemini call inside `generate_interview_report`: the model
response may fail to parse as JSON (`json.JSONDecodeError`), the call may fail
otherwise, or a parsed report comes back. -/
inductive TechAiOutcome
  | success (rd : TechReportData)
  | parseFailure
  | otherFailure (msg : String)
deriving DecidableEq

/-- Response body of `generate_interview_report`. -/
structure TechReportOut where
  overall_score : Int
  difficulty : String
  topics : List String
  duration : String
  questions_answered : Nat
  total_questions : Nat
  category_scores : List (String × Int)
  strengths : List String
  improvements : List String
  summary : String
deriving DecidableEq

/-- An exception escaping the `try` body of `generate_interview_report`: the
404 `HTTPException`s raised for a missing session or an empty message log, the
`json.JSONDecodeError` from parsing the AI response, or any other exception
(carrying its message). -/
inductive TryException
  | httpException (e : HttpError)
  | jsonDecodeError
  | otherException (msg : String)
deriving DecidableEq

/-- `str(e)` on a FastAPI `HTTPException` (starlette renders it as
`"{status_code}: {detail}"`). -/
def httpExceptionStr (e : HttpError) : String :=
  toString e.code ++ ": " ++ e.detail

/-- The `try` body of the `generate_interview_report` endpoint (`main.py`):
after fetching the session it immediately writes `end_time` when it is unset,
then raises a 404 `HTTPException` on an empty message log, pairs messages
positionally, and calls the AI.  Only on AI success are `final_report`,
`final_score` and `status` written (in a second update that does not touch
`end_time`); failures escape as exceptions, leaving the early `end_time` write
in place. -/
def generate_interview_report_try (sid : String) (now : Nat) (ai : TechAiOutcome) (db : Db) :
    Db × Except TryException TechReportOut :=
  match findSession db sid with
  | none =>
      (db, Except.error (TryException.httpException { code := 404, detail := "Session not found" }))
  | some s =>
    let db1 := if s.end_time = none then updateSession db sid (fun t => { t with end_time := some now }) else db
    let messages := sessionMessages db1 sid
    if messages = [] then
      (db1, Except.error (TryException.httpException { code := 404, detail := "No interview data found" }))
    else
      let qaPairs := techQaPairs messages
      match ai with
      | TechAiOutcome.success rd =>
          (updateSession db1 sid (fun t =>
             { t with final_report := some (encodeTechReportData rd)
                      final_score := some rd.overall_score
                      status := "completed" }),
           Except.ok { overall_score := rd.overall_score
                       difficulty := s.difficulty
                       topics := s.topics_covered
                       duration := "~" ++ toString (qaPairs.length * 3) ++ " minutes"
                       questions_answered := qaPairs.length
                       total_questions := qaPairs.length
                       category_scores := rd.category_scores
                       strengths := rd.strengths
                       improvements := rd.improvements
                       summary := rd.summary })
      | TechAiOutcome.parseFailure =>
          (db1, Except.error TryException.jsonDecodeError)
      | TechAiOutcome.otherFailure m =>
          (db1, Except.error (TryException.otherException m))

/-- `generate_interview_report` endpoint (`main.py`): the `try` body followed
by its two handlers.  `except json.JSONDecodeError` raises HTTP 500
`"Failed to parse AI response. Please try again."`; the bare
`except Exception` — which, lacking an `HTTPException` re-raise, also catches
the body's own 404 `HTTPException`s — raises HTTP 500
`"Failed to generate report: " ++ str(e)`. -/
def generate_interview_report (sid : String) (now : Nat) (ai : TechAiOutcome) (db : Db) :
    Db × Except HttpError TechReportOut :=
  ((generate_interview_report_try sid now ai db).1,
   match (generate_interview_report_try sid now ai db).2 with
   | Except.ok out => Except.ok out
   | Except.error TryException.jsonDecodeError =>
       Except.error { code := 500, detail := "Failed to parse AI response. Please try again." }
   | Except.error (TryException.httpException e) =>
       Except.error { code := 500, detail := "Failed to generate report: " ++ httpExceptionStr e }
   | Except.error (TryException.otherException m) =>
       Except.error { code := 500, detail := "Failed to generate report: " ++ m })

/- ### HR question generation (`hr_questions.py`, `hr_interview_service.py`) -/

/-- One HR question (`{question, category, purpose, difficulty, hints}`). -/
structure HrQuestion where
  question : String
  category : String
  purpose : String
  difficulty : String
  hints : List String
deriving DecidableEq

/-- `get_common_hr_questions` (`hr_questions.py`): the fixed pool of common HR
questions that are always relevant. -/
def get_common_hr_questions : List HrQuestion :=
  [ { question := "Tell me about yourself."
      category := "introduction"
      purpose := "Ice breaker and overview of candidate"
      difficulty := "easy"
      hints :=
        [ "Start with current role/education and career journey"
        , "Mention 2-3 key achievements or skills"
        , "Include hobbies or interests that show your personality"
        , "Connect your background to why you\x27re here today"
        , "Keep it professional but personable (2-3 minutes max)" ] }
  , { question := "Why should we hire you?"
      category := "self_promotion"
      purpose := "Assess self-awareness and value proposition"
      difficulty := "medium"
      hints :=
        [ "Match your skills directly to the job requirements"
        , "Highlight unique strengths or experiences you bring"
        , "Give 2-3 specific examples of past successes"
        , "Show enthusiasm and cultural fit with the company"
        , "Be confident but not arrogant" ] }
  , { question := "What are your strengths and weaknesses?"
      category := "self_awareness"
      purpose := "Evaluate self-assessment and honesty"
      difficulty := "medium"
      hints :=
        [ "For strengths: Pick 2-3 relevant to the job with examples"
        , "For weaknesses: Be honest but choose something minor"
        , "Show you\x27re actively working to improve the weakness"
        , "Don\x27t say \x27I\x27m a perfectionist\x27 - it\x27s overused"
        , "Balance honesty with confidence" ] }
  , { question := "How do you handle pressure and tight deadlines?"
      category := "behavioral"
      purpose := "Assess stress management skills"
      difficulty := "medium"
      hints :=
        [ "Share a specific example of working under pressure"
        , "Describe your prioritization and time management approach"
        , "Mention techniques you use (planning, breaks, asking for help)"
        , "Show the successful outcome despite the pressure"
        , "Demonstrate you stay calm and focused" ] }
  , { question := "What are your salary expectations?"
      category := "compensation"
      purpose := "Understand compensation alignment"
      difficulty := "hard"
      hints :=
        [ "Research market rates for this role in your location"
        , "Provide a salary range, not a fixed number"
        , "Consider total compensation (benefits, growth opportunities)"
        , "Be flexible and open to negotiation"
        , "Focus on value you bring, not just your needs" ] } ]

/-- The question filter of `generate_next_hr_question`: drop every question
whose text is in `previous_questions`; when nothing is left, substitute the
common-question pool. -/
def available_hr_questions (hrQuestions : List HrQuestion) (previous : List String) : List HrQuestion :=
  let avail := hrQuestions.filter (fun q => ! previous.contains q.question)
  if avail = [] then get_common_hr_questions else avail

/-- The selection of `generate_next_hr_question`:
`available_questions[len(previous_questions) % len(available_questions)]`. -/
def next_hr_question (hrQuestions : List HrQuestion) (previous : List String) : Option HrQuestion :=
  let avail := available_hr_questions hrQuestions previous
  avail[previous.length % avail.length]?

/-- Response body of `generate_next_hr_question`. -/
structure NextHrQuestionOut where
  question : HrQuestion
  message_id : String
  total_questions_asked : Nat
deriving DecidableEq

/-- `generate_next_hr_question` (`hr_interview_service.py`): session and resume
must exist, the next question is selected from the generator output (or the
common pool) and appended to the log as an `ai` message.  The session status is
never inspected. -/
def generate_next_hr_question (sid rid : String) (hrQuestions : List HrQuestion)
    (previous : List String) (msgId : String) (now : Nat) (db : Db) :
    Db × Except String NextHrQuestionOut :=
  match findSession db sid, db.resumes.find? (fun r => r.resume_id == rid) with
  | some _, some _ =>
      match next_hr_question hrQuestions previous with
      | some q =>
          let msg : InterviewMessageRec :=
            { message_id := msgId, session_id := sid, role := "ai", content := q.question
              timestamp := now, confidence_score := none, facial_emotion := none }
          ({ db with messages := db.messages ++ [msg] },
           Except.ok { question := q, message_id := msgId
                       total_questions_asked := previous.length + 1 })
      | none => (db, Except.error "Failed to generate HR question: list index out of range")
  | _, _ => (db, Except.error "Failed to generate HR question: Session or resume not found")

/- ### Session creation (`main.py`, `hr_interview_service.py`) -/

/-- Response body of `create_interview_session`. -/
structure CreateSessionOut where
  session_id : String
  resume_id : String
deriving DecidableEq

/-- `create_interview_session` endpoint (`main.py`): upserts the user, looks up
the user's latest resume and fails with HTTP 400 when there is none; otherwise
inserts a fresh `active` session. -/
def create_interview_session (uid difficulty : String) (topics : List String)
    (newSid : String) (now : Nat) (db : Db) : Db × Except HttpError CreateSessionOut :=
  let db1 := ensure_user_exists db uid ("user_" ++ uid ++ "@clerk.dev")
  match latest_resume db1.resumes uid with
  | none => (db1, Except.error { code := 400, detail := "No resume found for user. Please upload a resume first." })
  | some r =>
      let s : InterviewSessionRec :=
        { session_id := newSid, user_id := uid, start_time := now, end_time := none
          difficulty := difficulty, topics_covered := topics
          final_score := none, final_report := none, status := "active" }
      ({ db1 with sessions := db1.sessions ++ [s] },
       Except.ok { session_id := newSid, resume_id := r.resume_id })

/-- Response body of `create_hr_interview_session`. -/
structure CreateHrSessionOut where
  session_id : String
  resume_id : String
deriving DecidableEq

/-- `create_hr_interview_session` (`hr_interview_service.py`): the referenced
resume must exist (`ValueError("Resume not found")` otherwise, wrapped by the
service's generic handler); on success a fresh `active` HR session is
inserted. -/
def create_hr_interview_session (uid rid : String) (newSid : String) (now : Nat) (db : Db) :
    Db × Except String CreateHrSessionOut :=
  match db.resumes.find? (fun r => r.resume_id == rid) with
  | none => (db, Except.error "Failed to create HR interview session: Resume not found")
  | some _ =>
      let s : InterviewSessionRec :=
        { session_id := newSid, user_id := uid, start_time := now, end_time := none
          difficulty := "medium"
          topics_covered := ["HR", "Behavioral", "Career Goals", "Company Culture"]
          final_score := none, final_report := none, status := "active" }
      ({ db with sessions := db.sessions ++ [s] },
       Except.ok { session_id := newSid, resume_id := rid })

/-- `create_hr_interview` endpoint (`main.py`): any exception from the service
is surfaced as HTTP 500 with the wrapped message. -/
def create_hr_interview (uid rid : String) (newSid : String) (now : Nat) (db : Db) :
    Db × Except HttpError CreateHrSessionOut :=
  match create_hr_interview_session uid rid newSid now db with
  | (db2, Except.ok r) => (db2, Except.ok r)
  | (db2, Except.error e) =>
      (db2, Except.error { code := 500, detail := "Failed to create HR interview: " ++ e })

/- ### Helper lemmas -/

/-- Updating a session row leaves the message log untouched. -/
theorem messages_updateSession (db : Db) (sid : String) (f : InterviewSessionRec → InterviewSessionRec) :
    (updateSession db sid f).messages = db.messages := rfl

/-- Updating a session row leaves the per-session message query untouched. -/
theorem sessionMessages_updateSession (db : Db) (sid sid2 : String)
    (f : InterviewSessionRec → InterviewSessionRec) :
    sessionMessages (updateSession db sid f) sid2 = sessionMessages db sid2 := rfl

theorem find?_update_list (l : List InterviewSessionRec) (sid : String)
    (f : InterviewSessionRec → InterviewSessionRec)
    (hf : ∀ s, (f s).session_id = s.session_id) :
    (l.map (fun s => if s.session_id == sid then f s else s)).find? (fun s => s.session_id == sid)
      = (l.find? (fun s => s.session_id == sid)).map f := by
  induction l with
  | nil => rfl
  | cons s t ih =>
    rw [List.map_cons]
    by_cases h : (s.session_id == sid) = true
    · rw [if_pos h]
      have hfs : ((f s).session_id == sid) = true := by rw [hf s]; exact h
      simp only [List.find?_cons, hfs, h]
      rfl
    · have h2 : (s.session_id == sid) = false := by simpa using h
      rw [if_neg h]
      simp only [List.find?_cons, h2]
      exact ih

/-- Looking up the updated session after `updateSession` returns the updated
row, provided the update preserves the key. -/
theorem findSession_updateSession (db : Db) (sid : String)
    (f : InterviewSessionRec → InterviewSessionRec)
    (hf : ∀ s, (f s).session_id = s.session_id) :
    findSession (updateSession db sid f) sid = (findSession db sid).map f := by
  unfold findSession updateSession
  exact find?_update_list db.sessions sid f hf

theorem hr_report_no_answers (sid : String) (now : Nat) (ai : HrAiOutcome) (db : Db)
    (s : InterviewSessionRec) (h : findSession db sid = some s)
    (ha : (answersGiven (sessionMessages db sid)).length = 0) :
    generate_hr_interview_report sid now ai db =
      (db, Except.error "No answers found. Please answer at least one question before generating report.") := by
  unfold generate_hr_interview_report
  rw [h]
  simp [ha]

theorem hr_report_fallback (sid : String) (now : Nat) (ai : HrAiOutcome) (db : Db)
    (s : InterviewSessionRec) (h : findSession db sid = some s)
    (ha : (answersGiven (sessionMessages db sid)).length ≠ 0)
    (hai : ∀ rd, ai ≠ HrAiOutcome.success rd) :
    generate_hr_interview_report sid now ai db =
      (updateSession db sid (fun t =>
         { t with status := "completed", end_time := some now
                  final_score := some ((basic_score (answersGiven (sessionMessages db sid)).length : Nat) : Int)
                  final_report := some (encodeHrReport (mkFallbackHrReport sid
                    (hrQaPairs (sessionMessages db sid)) (answersGiven (sessionMessages db sid)).length)) }),
       Except.ok (mkFallbackHrReport sid (hrQaPairs (sessionMessages db sid))
         (answersGiven (sessionMessages db sid)).length)) := by
  unfold generate_hr_interview_report
  rw [h]
  cases ai with
  | success rd => exact absurd rfl (hai rd)
  | noKey => simp [ha]
  | aiError m => simp [ha]

theorem hr_report_success (sid : String) (now : Nat) (rd : HrReportData) (db : Db)
    (s : InterviewSessionRec) (h : findSession db sid = some s)
    (ha : (answersGiven (sessionMessages db sid)).length ≠ 0) :
    generate_hr_interview_report sid now (HrAiOutcome.success rd) db =
      (updateSession db sid (fun t =>
         { t with status := "completed", end_time := some now
                  final_score := some rd.overall_score
                  final_report := some (encodeHrReportData rd) }),
       Except.ok (aiHrReportOut sid (hrQaPairs (sessionMessages db sid)).length rd)) := by
  unfold generate_hr_interview_report
  rw [h]
  simp [ha]

theorem tech_try_parseFailure (sid : String) (now : Nat) (db : Db)
    (s : InterviewSessionRec) (h : findSession db sid = some s) (he : s.end_time = none)
    (hm : sessionMessages db sid ≠ []) :
    generate_interview_report_try sid now TechAiOutcome.parseFailure db =
      (updateSession db sid (fun t => { t with end_time := some now }),
       Except.error TryException.jsonDecodeError) := by
  unfold generate_interview_report_try
  rw [h]
  simp [he, sessionMessages_updateSession, hm]

theorem tech_report_parseFailure (sid : String) (now : Nat) (db : Db)
    (s : InterviewSessionRec) (h : findSession db sid = some s) (he : s.end_time = none)
    (hm : sessionMessages db sid ≠ []) :
    generate_interview_report sid now TechAiOutcome.parseFailure db =
      (updateSession db sid (fun t => { t with end_time := some now }),
       Except.error { code := 500, detail := "Failed to parse AI response. Please try again." }) := by
  unfold generate_interview_report
  rw [tech_try_parseFailure sid now db s h he hm]

theorem tech_try_no_messages (sid : String) (now : Nat) (ai : TechAiOutcome) (db : Db)
    (s : InterviewSessionRec) (h : findSession db sid = some s) (he : s.end_time = none)
    (hm : sessionMessages db sid = []) :
    generate_interview_report_try sid now ai db =
      (updateSession db sid (fun t => { t with end_time := some now }),
       Except.error (TryException.httpException { code := 404, detail := "No interview data found" })) := by
  unfold generate_interview_report_try
  rw [h]
  simp [he, sessionMessages_updateSession, hm]

theorem tech_report_no_messages (sid : String) (now : Nat) (ai : TechAiOutcome) (db : Db)
    (s : InterviewSessionRec) (h : findSession db sid = some s) (he : s.end_time = none)
    (hm : sessionMessages db sid = []) :
    generate_interview_report sid now ai db =
      (updateSession db sid (fun t => { t with end_time := some now }),
       Except.error
         { code := 500,
           detail := "Failed to generate report: " ++
             httpExceptionStr { code := 404, detail := "No interview data found" } }) := by
  unfold generate_interview_report
  rw [tech_try_no_messages sid now ai db s h he hm]

theorem find?_first_min {p : InterviewMessageRec → Bool} {l : List InterviewMessageRec}
    {a : InterviewMessageRec}
    (hs : l.Pairwise (fun x y => x.timestamp ≤ y.timestamp))
    (h : l.find? p = some a) :
    ∀ b ∈ l, p b = true → a.timestamp ≤ b.timestamp := by
  induction l with
  | nil => simp at h
  | cons c t ih =>
    rcases List.pairwise_cons.mp hs with ⟨hc, ht⟩
    by_cases hp : p c = true
    · simp only [List.find?_cons, hp] at h
      have hac : a = c := by
        injection h with h2
        exact h2.symm
      subst hac
      intro b hb _
      rcases List.mem_cons.mp hb with hbc | hbt
      · subst hbc; exact le_refl _
      · exact hc b hbt
    · have h2 : p c = false := by simpa using hp
      simp only [List.find?_cons, h2] at h
      intro b hb hpb
      rcases List.mem_cons.mp hb with hbc | hbt
      · subst hbc; rw [hpb] at h2; cases h2
      · exact ih ht h b hbt hpb

theorem map_fst_hr_pairs (qs ans : List InterviewMessageRec) :
    ((qs.filterMap (fun q => (findAnswer ans q).map (fun a => (q.content, a.content)))).map Prod.fst)
      = (qs.filter (fun q => (findAnswer ans q).isSome)).map (fun m => m.content) := by
  induction qs with
  | nil => rfl
  | cons q t ih =>
    cases h : findAnswer ans q with
    | none => simp [List.filterMap_cons, List.filter_cons, h, ih]
    | some a => simp [List.filterMap_cons, List.filter_cons, h, ih]

theorem availableFallbackPool_ne_nil (t d : String) (prev : List String) :
    availableFallbackPool t d prev ≠ [] := by
  unfold availableFallbackPool
  by_cases h : availableFallbackQuestions t d prev = []
  · simp only [h, if_pos]
    simp [fallback_questions]
  · simp [h]

theorem generate_question_fallback_isSome (t d : String) (prev : List String) :
    (generate_question_fallback t d prev).isSome = true := by
  unfold generate_question_fallback
  have hne := availableFallbackPool_ne_nil t d prev
  have hpos : 0 < (availableFallbackPool t d prev).length := List.length_pos.mpr hne
  have hlt : prev.length % (availableFallbackPool t d prev).length
      < (availableFallbackPool t d prev).length := Nat.mod_lt _ hpos
  simp [List.getElem?_eq_getElem hlt]

theorem buildQuestionFeedback_getElem (score : Int) :
    ∀ (qa : List (String × String)) (start i : Nat) (h : i < qa.length),
    (buildQuestionFeedback score start qa)[i]? =
      some { question_number := start + i + 1
             question := (qa.get ⟨i, h⟩).1
             user_answer := (qa.get ⟨i, h⟩).2
             expected_answer := expected_answer_for (qa.get ⟨i, h⟩).1
             score := score - (((start + i) % 3 : Nat) : Int) * 5
             what_went_well := (feedback_template (start + i)).what_went_well
             areas_to_improve := (feedback_template (start + i)).areas_to_improve
             better_answer_approach := (feedback_template (start + i)).better_approach } := by
  intro qa
  induction qa with
  | nil => intro start i h; simp at h
  | cons p rest ih =>
    intro start i h
    cases i with
    | zero => simp [buildQuestionFeedback]
    | succ j =>
      have hj : j < rest.length := by
        simpa [Nat.succ_lt_succ_iff] using h
      have e : start + 1 + j = start + (j + 1) := by omega
      have := ih (start + 1) j hj
      rw [e] at this
      simpa [buildQuestionFeedback, List.getElem?_cons_succ] using this

theorem available_hr_questions_ne_nil (hqs : List HrQuestion) (prev : List String) :
    available_hr_questions hqs prev ≠ [] := by
  show (if hqs.filter (fun q => ! prev.contains q.question) = [] then get_common_hr_questions
        else hqs.filter (fun q => ! prev.contains q.question)) ≠ []
  by_cases h : hqs.filter (fun q => ! prev.contains q.question) = []
  · rw [if_pos h]
    simp [get_common_hr_questions]
  · rw [if_neg h]
    exact h

theorem next_hr_question_isSome (hqs : List HrQuestion) (prev : List String) :
    (next_hr_question hqs prev).isSome = true := by
  unfold next_hr_question
  have hne := available_hr_questions_ne_nil hqs prev
  have hpos : 0 < (available_hr_questions hqs prev).length := List.length_pos.mpr hne
  have hlt : prev.length % (available_hr_questions hqs prev).length
      < (available_hr_questions hqs prev).length := Nat.mod_lt _ hpos
  simp [List.getElem?_eq_getElem hlt]

theorem resumes_ensure_user (db : Db) (uid email : String) :
    (ensure_user_exists db uid email).resumes = db.resumes := by
  unfold ensure_user_exists
  cases db.users.find? (fun u => u.user_id == uid) <;> rfl

theorem sessions_ensure_user (db : Db) (uid email : String) :
    (ensure_user_exists db uid email).sessions = db.sessions := by
  unfold ensure_user_exists
  cases db.users.find? (fun u => u.user_id == uid) <;> rfl

theorem tech_report_parseFailure_any (sid : String) (now : Nat) (db : Db)
    (s : InterviewSessionRec) (h : findSession db sid = some s)
    (hm : sessionMessages db sid ≠ []) :
    (generate_interview_report sid now TechAiOutcome.parseFailure db).2 =
      Except.error { code := 500, detail := "Failed to parse AI response. Please try again." } := by
  have h2 : (generate_interview_report_try sid now TechAiOutcome.parseFailure db).2 =
      Except.error TryException.jsonDecodeError := by
    unfold generate_interview_report_try
    rw [h]
    by_cases he : s.end_time = none
    · simp [he, sessionMessages_updateSession, hm]
    · simp [he, hm]
  unfold generate_interview_report
  rw [h2]

/- ### Claims -/

/-- C4: when the AI Gateway is unavailable during HR report synthesis, for
every number `n ≥ 1` of answer messages the fallback `overall_score` equals
`min(85, 60 + 5 * n)`, hence lies in `[60, 85]` and is monotonically
non-decreasing in `n`; each category sub-score is a fixed deterministic offset
from the overall score (Communication −5, Self-Awareness +0, Problem-Solving
−10, Cultural Fit +5, Career Motivation +0, in fixed order); a session with
exactly two answered pairs yields overall score 70. -/
theorem c4_fallback_score_formula : ∀ n : Nat, 1 ≤ n →
    (basic_score n = min 85 (60 + 5 * n)) ∧
    (60 ≤ basic_score n ∧ basic_score n ≤ 85) ∧
    (∀ m : Nat, n ≤ m → basic_score n ≤ basic_score m) ∧
    (fallback_category_scores (basic_score n) =
      [ ("Communication Skills", (basic_score n : Int) - 5)
      , ("Self-Awareness", (basic_score n : Int) + 0)
      , ("Problem-Solving Approach", (basic_score n : Int) - 10)
      , ("Cultural Fit", (basic_score n : Int) + 5)
      , ("Career Motivation", (basic_score n : Int) + 0) ]) ∧
    (basic_score 2 = 70) ∧
    (∀ (sid : String) (now : Nat) (msg : String) (db : Db) (s : InterviewSessionRec),
      findSession db sid = some s →
      (answersGiven (sessionMessages db sid)).length = n →
      (generate_hr_interview_report sid now (HrAiOutcome.aiError msg) db).2 =
        Except.ok (mkFallbackHrReport sid (hrQaPairs (sessionMessages db sid)) n) ∧
      (mkFallbackHrReport sid (hrQaPairs (sessionMessages db sid)) n).overall_score =
        ((min 85 (60 + 5 * n) : Nat) : Int)) := by
  intro n hn
  refine ⟨?_, ⟨?_, ?_⟩, ?_, ?_, ?_, ?_⟩
  · unfold basic_score; omega
  · unfold basic_score; omega
  · unfold basic_score; omega
  · intro m hm; unfold basic_score; omega
  · simp [fallback_category_scores]
  · rfl
  · intro sid now msg db s h ha
    have ha0 : (answersGiven (sessionMessages db sid)).length ≠ 0 := by omega
    constructor
    · rw [hr_report_fallback sid now (HrAiOutcome.aiError msg) db s h ha0
        (by intro rd hc; exact HrAiOutcome.noConfusion hc)]
      rw [ha]
    · show ((basic_score n : Nat) : Int) = ((min 85 (60 + 5 * n) : Nat) : Int)
      unfold basic_score
      congr 1
      omega

/-- C4 witness: at `n = 2` the hypothesis `1 ≤ 2` holds and the fallback
overall score is 70. -/
theorem c4_witness : 1 ≤ 2 ∧ basic_score 2 = 70 :=
  ⟨by decide, (c4_fallback_score_formula 2 (by decide)).2.2.2.2.1⟩

/-- C5: under AI Gateway failure the technical next-question fallback always
returns a question (the cycle index is always in range, so it never throws);
the selected question never matches one of the last three previous questions
unless the filter emptied the pool; and once every template is skipped the full
pool is reinstated and the selection is the cycle index
`len(previous) mod 5` into it. -/
theorem c5_fallback_question_total : ∀ (t d : String) (prev : List String),
    (generate_question_fallback t d prev).isSome = true ∧
    (∀ q : TechQuestion, generate_question_fallback t d prev = some q →
      availableFallbackQuestions t d prev ≠ [] →
      ((lastThree (prev.map str_lower)).any
        (fun pq => str_contains pq (str_lower q.question))) = false) ∧
    (availableFallbackQuestions t d prev = [] →
      generate_question_fallback t d prev = (fallback_questions t d)[prev.length % 5]?) := by
  intro t d prev
  refine ⟨generate_question_fallback_isSome t d prev, ?_, ?_⟩
  · intro q hq hne
    have hpool : availableFallbackPool t d prev = availableFallbackQuestions t d prev := by
      unfold availableFallbackPool
      rw [if_neg hne]
    unfold generate_question_fallback at hq
    rw [hpool] at hq
    have hmem : q ∈ availableFallbackQuestions t d prev := by
      rcases List.getElem?_eq_some.mp hq with ⟨hlt, hget⟩
      rw [← hget]
      exact List.getElem_mem hlt
    have := (List.mem_filter.mp hmem).2
    simpa using this
  · intro h0
    have hpool : availableFallbackPool t d prev = fallback_questions t d := by
      unfold availableFallbackPool
      rw [if_pos h0]
    unfold generate_question_fallback
    rw [hpool]
    rfl

/-- C5 witness: with previous questions `["e", "e", "e"]` every template is
skipped (each contains the letter `e`), the full pool is reinstated, and the
selection is the cycle index `3 mod 5` into it. -/
theorem c5_witness :
    availableFallbackQuestions "python" "medium" ["e", "e", "e"] = [] ∧
    generate_question_fallback "python" "medium" ["e", "e", "e"] =
      (fallback_questions "python" "medium")[(["e", "e", "e"] : List String).length % 5]? :=
  ⟨by decide, (c5_fallback_question_total "python" "medium" ["e", "e", "e"]).2.2 (by decide)⟩

/-- C10: in HR next-question generation the selectable pool is always
non-empty — when every resume-based question was already asked, the fixed
non-empty common-question pool is substituted — so the selection index
`len(previous) mod len(available)` is always well-defined and a question is
returned for every input. -/
theorem c10_hr_pool_nonempty : ∀ (hqs : List HrQuestion) (prev : List String),
    available_hr_questions hqs prev ≠ [] ∧
    (next_hr_question hqs prev).isSome = true ∧
    ((hqs.filter (fun q => ! prev.contains q.question)) = [] →
      available_hr_questions hqs prev = get_common_hr_questions) := by
  intro hqs prev
  refine ⟨available_hr_questions_ne_nil hqs prev, next_hr_question_isSome hqs prev, ?_⟩
  intro h0
  show (if hqs.filter (fun q => ! prev.contains q.question) = [] then get_common_hr_questions
        else hqs.filter (fun q => ! prev.contains q.question)) = get_common_hr_questions
  rw [if_pos h0]

/-- C10 witness: with an empty generator output every resume-based question is
trivially exhausted, the common pool is substituted, and a question is
returned. -/
theorem c10_witness :
    (([] : List HrQuestion).filter (fun q => ! ([] : List String).contains q.question)) = [] ∧
    available_hr_questions [] [] = get_common_hr_questions :=
  ⟨by decide, (c10_hr_pool_nonempty [] []).2.2 (by decide)⟩

/-- Concrete message log: an answered question followed by an unanswered
trailing question. -/
def c6Msgs : List InterviewMessageRec :=
  [ { message_id := "m1", session_id := "s6", role := "ai", content := "Q1"
      timestamp := 1, confidence_score := none, facial_emotion := none }
  , { message_id := "m2", session_id := "s6", role := "user", content := "A1"
      timestamp := 2, confidence_score := none, facial_emotion := none }
  , { message_id := "m3", session_id := "s6", role := "ai", content := "Q2"
      timestamp := 3, confidence_score := none, facial_emotion := none } ]

/-- C6 (amended): the HR report synthesis pairs each `ai` message with the
first `user` message of strictly later timestamp (the earliest such answer, on
a timestamp-sorted log), drops unpaired questions instead of scoring them, and
the paired transcript lists exactly the answered questions in their original
order.  The technical report synthesis (`main.py`) does not implement this
algorithm — see the counterexample. -/
theorem c6_hr_pairing_next_later : ∀ (msgs : List InterviewMessageRec),
    msgs.Pairwise (fun x y => x.timestamp ≤ y.timestamp) →
    (∀ p ∈ hrQaPairs msgs, ∃ q a,
        q ∈ questionsAsked msgs ∧ a ∈ answersGiven msgs ∧
        p = (q.content, a.content) ∧ q.timestamp < a.timestamp ∧
        (∀ b ∈ answersGiven msgs, q.timestamp < b.timestamp → a.timestamp ≤ b.timestamp)) ∧
    ((hrQaPairs msgs).map Prod.fst =
      ((questionsAsked msgs).filter (fun q => (findAnswer (answersGiven msgs) q).isSome)).map
        (fun m => m.content)) := by
  intro msgs hs
  constructor
  · intro p hp
    rcases List.mem_filterMap.mp hp with ⟨q, hq, hfq⟩
    cases hfa : findAnswer (answersGiven msgs) q with
    | none => rw [hfa] at hfq; simp at hfq
    | some a =>
      rw [hfa] at hfq
      have hpa : p = (q.content, a.content) := by
        simp only [Option.map_some'] at hfq
        exact (Option.some.inj hfq).symm
      have hmema : a ∈ answersGiven msgs := List.mem_of_find?_eq_some hfa
      have hlt : q.timestamp < a.timestamp := by
        have := List.find?_some hfa
        simpa using this
      have hsorted : (answersGiven msgs).Pairwise (fun x y => x.timestamp ≤ y.timestamp) :=
        List.Pairwise.sublist (List.filter_sublist msgs) hs
      refine ⟨q, a, hq, hmema, hpa, hlt, ?_⟩
      intro b hb hbt
      exact find?_first_min hsorted hfa b hb (by simpa using hbt)
  · unfold hrQaPairs
    exact map_fst_hr_pairs _ _

/-- C6 witness: on the concrete sorted log the paired transcript keeps exactly
the answered question, in order, dropping the trailing unanswered one. -/
theorem c6_witness :
    (c6Msgs.Pairwise (fun x y => x.timestamp ≤ y.timestamp)) ∧
    ((hrQaPairs c6Msgs).map Prod.fst =
      ((questionsAsked c6Msgs).filter (fun q => (findAnswer (answersGiven c6Msgs) q).isSome)).map
        (fun m => m.content)) :=
  ⟨by decide, (c6_hr_pairing_next_later c6Msgs (by decide)).2⟩

/-- C6 counterexample: on the log `[ai "Q1" at 1, user "A1" at 2]` the
technical report synthesis pairs positionally (its `assistant` role tag never
matches the stored `ai` role), producing the pair `("A1", "A1")` instead of the
`("Q1", "A1")` the claimed next-later-timestamp algorithm yields. -/
theorem c6_counterexample :
    techQaPairs
        [ { message_id := "m1", session_id := "s6", role := "ai", content := "Q1"
            timestamp := 1, confidence_score := none, facial_emotion := none }
        , { message_id := "m2", session_id := "s6", role := "user", content := "A1"
            timestamp := 2, confidence_score := none, facial_emotion := none } ]
      = [("A1", "A1")] ∧
    hrQaPairs
        [ { message_id := "m1", session_id := "s6", role := "ai", content := "Q1"
            timestamp := 1, confidence_score := none, facial_emotion := none }
        , { message_id := "m2", session_id := "s6", role := "user", content := "A1"
            timestamp := 2, confidence_score := none, facial_emotion := none } ]
      = [("Q1", "A1")] ∧
    (("A1", "A1") : String × String) ≠ ("Q1", "A1") := by
  refine ⟨by decide, by decide, by decide⟩

/-- Concrete fresh active session used for the C1 instances. -/
def c1Session : InterviewSessionRec :=
  { session_id := "s1", user_id := "u1", start_time := 0, end_time := none
    difficulty := "medium", topics_covered := [], final_score := none
    final_report := none, status := "active" }

/-- Concrete store holding the fresh session and one answered question. -/
def c1Db : Db :=
  { users := [], resumes := [], sessions := [c1Session]
    messages :=
      [ { message_id := "m1", session_id := "s1", role := "ai", content := "Q1"
          timestamp := 1, confidence_score := none, facial_emotion := none }
      , { message_id := "m2", session_id := "s1", role := "user", content := "A1"
          timestamp := 2, confidence_score := none, facial_emotion := none } ] }

/-- Concrete parsed AI report used for the C1 witness. -/
def c1Rd : HrReportData :=
  { overall_score := 88, category_scores := [], strengths := [], weaknesses := []
    personalized_feedback := "", recommendations := []
    question_by_question_feedback := [] }

/-- C1 (amended): in the HR flow the completed-iff-all-set invariant holds —
`generate_hr_interview_report` writes `status`, `end_time`, `final_score` and
`final_report` together in a single transition (on both the AI and the fallback
path) and leaves the store untouched whenever it fails.  The technical
`generate_interview_report` endpoint, however, writes `end_time` on its own
before synthesis, so an AI failure leaves `end_time` set while `final_score`
and `final_report` stay null and the status stays `active`. -/
theorem c1_completed_fields_together :
    (∀ (sid : String) (now : Nat) (rd : HrReportData) (db : Db) (s : InterviewSessionRec),
      findSession db sid = some s →
      (answersGiven (sessionMessages db sid)).length ≠ 0 →
      generate_hr_interview_report sid now (HrAiOutcome.success rd) db =
        (updateSession db sid (fun t =>
           { t with status := "completed", end_time := some now
                    final_score := some rd.overall_score
                    final_report := some (encodeHrReportData rd) }),
         Except.ok (aiHrReportOut sid (hrQaPairs (sessionMessages db sid)).length rd))) ∧
    (∀ (sid : String) (now : Nat) (m : String) (db : Db) (s : InterviewSessionRec),
      findSession db sid = some s →
      (answersGiven (sessionMessages db sid)).length ≠ 0 →
      generate_hr_interview_report sid now (HrAiOutcome.aiError m) db =
        (updateSession db sid (fun t =>
           { t with status := "completed", end_time := some now
                    final_score := some ((basic_score (answersGiven (sessionMessages db sid)).length : Nat) : Int)
                    final_report := some (encodeHrReport (mkFallbackHrReport sid
                      (hrQaPairs (sessionMessages db sid)) (answersGiven (sessionMessages db sid)).length)) }),
         Except.ok (mkFallbackHrReport sid (hrQaPairs (sessionMessages db sid))
           (answersGiven (sessionMessages db sid)).length))) ∧
    (∀ (sid : String) (now : Nat) (ai : HrAiOutcome) (db : Db),
      (generate_hr_interview_report sid now ai db).2.isOk = false →
      (generate_hr_interview_report sid now ai db).1 = db) ∧
    (∀ (sid : String) (now : Nat) (db : Db) (s : InterviewSessionRec),
      findSession db sid = some s → s.end_time = none → sessionMessages db sid ≠ [] →
      generate_interview_report sid now TechAiOutcome.parseFailure db =
        (updateSession db sid (fun t => { t with end_time := some now }),
         Except.error { code := 500, detail := "Failed to parse AI response. Please try again." })) := by
  refine ⟨?_, ?_, ?_, ?_⟩
  · intro sid now rd db s h ha
    exact hr_report_success sid now rd db s h ha
  · intro sid now m db s h ha
    exact hr_report_fallback sid now (HrAiOutcome.aiError m) db s h ha
      (by intro rd hc; exact HrAiOutcome.noConfusion hc)
  · intro sid now ai db h
    cases hfs : findSession db sid with
    | none =>
        unfold generate_hr_interview_report
        rw [hfs]
    | some s =>
        by_cases ha : (answersGiven (sessionMessages db sid)).length = 0
        · rw [hr_report_no_answers sid now ai db s hfs ha]
        · exfalso
          cases ai with
          | success rd =>
              rw [hr_report_success sid now rd db s hfs ha] at h
              simp [Except.isOk, Except.toBool] at h
          | noKey =>
              rw [hr_report_fallback sid now HrAiOutcome.noKey db s hfs ha
                (by intro rd hc; exact HrAiOutcome.noConfusion hc)] at h
              simp [Except.isOk, Except.toBool] at h
          | aiError m =>
              rw [hr_report_fallback sid now (HrAiOutcome.aiError m) db s hfs ha
                (by intro rd hc; exact HrAiOutcome.noConfusion hc)] at h
              simp [Except.isOk, Except.toBool] at h
  · intro sid now db s h he hm
    exact tech_report_parseFailure sid now db s h he hm

/-- C1 witness: the HR AI-success transition at the concrete store sets all
completion fields in one step. -/
theorem c1_witness :
    (findSession c1Db "s1" = some c1Session ∧
     (answersGiven (sessionMessages c1Db "s1")).length ≠ 0) ∧
    generate_hr_interview_report "s1" 9 (HrAiOutcome.success c1Rd) c1Db =
      (updateSession c1Db "s1" (fun t =>
         { t with status := "completed", end_time := some 9
                  final_score := some c1Rd.overall_score
                  final_report := some (encodeHrReportData c1Rd) }),
       Except.ok (aiHrReportOut "s1" (hrQaPairs (sessionMessages c1Db "s1")).length c1Rd)) :=
  ⟨⟨by decide, by decide⟩,
   c1_completed_fields_together.1 "s1" 9 c1Rd c1Db c1Session (by decide) (by decide)⟩

/-- C1 counterexample: the technical report endpoint under an AI parse failure
leaves the concrete session with `end_time` set but `final_score` and
`final_report` null and status `active` — the three completion fields are
partially set. -/
theorem c1_counterexample :
    (findSession (generate_interview_report "s1" 9 TechAiOutcome.parseFailure c1Db).1 "s1").map
        (fun s => (s.status, s.end_time, s.final_score, s.final_report))
      = some ("active", some 9, none, none) := by decide

/-- Concrete completed session used for the C2 instances. -/
def c2Session : InterviewSessionRec :=
  { session_id := "s2", user_id := "u1", start_time := 0, end_time := some 10
    difficulty := "medium", topics_covered := [], final_score := some 70
    final_report := some "stored-report", status := "completed" }

/-- Concrete store holding the completed session and its answered question. -/
def c2Db : Db :=
  { users := [], resumes := [], sessions := [c2Session]
    messages :=
      [ { message_id := "m1", session_id := "s2", role := "ai", content := "Q1"
          timestamp := 1, confidence_score := none, facial_emotion := none }
      , { message_id := "m2", session_id := "s2", role := "user", content := "A1"
          timestamp := 2, confidence_score := none, facial_emotion := none } ] }

/-- C2 (amended): completed sessions are not immutable.  No operation moves a
session out of `completed` and `complete` itself appends no messages, but
`submit_answer` and HR next-question generation append to the log of a
completed session unchecked, and a second `complete` call is accepted: it
recomputes the report and overwrites `end_time`, `final_score` and
`final_report` instead of rejecting or returning the stored report. -/
theorem c2_completed_not_immutable :
    (∀ (sid ans : String) (conf : Option Int) (emo : Option String) (mid : String) (now : Nat)
        (db : Db) (s : InterviewSessionRec),
      findSession db sid = some s → s.status = "completed" →
      (submit_answer sid ans conf emo mid now db).1.messages =
        db.messages ++ [{ message_id := mid, session_id := sid, role := "user", content := ans
                          timestamp := now, confidence_score := conf, facial_emotion := emo }] ∧
      (submit_answer sid ans conf emo mid now db).1.sessions = db.sessions ∧
      (submit_answer sid ans conf emo mid now db).2.isOk = true) ∧
    (∀ (sid rid : String) (hqs : List HrQuestion) (prev : List String) (mid : String) (now : Nat)
        (db : Db) (s : InterviewSessionRec) (r : ResumeRec),
      findSession db sid = some s → s.status = "completed" →
      db.resumes.find? (fun x => x.resume_id == rid) = some r →
      ∃ q, next_hr_question hqs prev = some q ∧
        (generate_next_hr_question sid rid hqs prev mid now db).1.messages =
          db.messages ++ [{ message_id := mid, session_id := sid, role := "ai"
                            content := q.question, timestamp := now
                            confidence_score := none, facial_emotion := none }] ∧
        (generate_next_hr_question sid rid hqs prev mid now db).1.sessions = db.sessions) ∧
    (∀ (sid : String) (now : Nat) (m : String) (db : Db) (s : InterviewSessionRec),
      findSession db sid = some s → s.status = "completed" →
      (answersGiven (sessionMessages db sid)).length ≠ 0 →
      (generate_hr_interview_report sid now (HrAiOutcome.aiError m) db).2.isOk = true ∧
      (generate_hr_interview_report sid now (HrAiOutcome.aiError m) db).1.messages = db.messages ∧
      findSession (generate_hr_interview_report sid now (HrAiOutcome.aiError m) db).1 sid =
        some { s with status := "completed", end_time := some now
                      final_score := some ((basic_score (answersGiven (sessionMessages db sid)).length : Nat) : Int)
                      final_report := some (encodeHrReport (mkFallbackHrReport sid
                        (hrQaPairs (sessionMessages db sid)) (answersGiven (sessionMessages db sid)).length)) }) := by
  refine ⟨?_, ?_, ?_⟩
  · intro sid ans conf emo mid now db s _ _
    exact ⟨rfl, rfl, rfl⟩
  · intro sid rid hqs prev mid now db s r hfs _ hr
    have hsome := next_hr_question_isSome hqs prev
    cases hnq : next_hr_question hqs prev with
    | none => rw [hnq] at hsome; simp at hsome
    | some q =>
      have e : generate_next_hr_question sid rid hqs prev mid now db =
          ({ db with messages := db.messages ++
              [{ message_id := mid, session_id := sid, role := "ai", content := q.question
                 timestamp := now, confidence_score := none, facial_emotion := none }] },
           Except.ok { question := q, message_id := mid
                       total_questions_asked := prev.length + 1 }) := by
        unfold generate_next_hr_question
        rw [hfs, hr, hnq]
      rw [e]
      exact ⟨q, rfl, rfl, rfl⟩
  · intro sid now m db s hfs _ ha
    rw [hr_report_fallback sid now (HrAiOutcome.aiError m) db s hfs ha
      (by intro rd hc; exact HrAiOutcome.noConfusion hc)]
    refine ⟨rfl, rfl, ?_⟩
    rw [findSession_updateSession db sid (fun t =>
          { t with status := "completed", end_time := some now
                   final_score := some ((basic_score (answersGiven (sessionMessages db sid)).length : Nat) : Int)
                   final_report := some (encodeHrReport (mkFallbackHrReport sid
                     (hrQaPairs (sessionMessages db sid)) (answersGiven (sessionMessages db sid)).length)) })
        (fun t => rfl), hfs]
    rfl

/-- C2 witness: on the concrete completed session, `submit_answer` appends a
`user` message to the log. -/
theorem c2_witness :
    (findSession c2Db "s2" = some c2Session ∧ c2Session.status = "completed") ∧
    (submit_answer "s2" "late answer" none none "m9" 30 c2Db).1.messages =
      c2Db.messages ++ [{ message_id := "m9", session_id := "s2", role := "user"
                          content := "late answer", timestamp := 30
                          confidence_score := none, facial_emotion := none }] :=
  ⟨⟨by decide, by decide⟩,
   (c2_completed_not_immutable.1 "s2" "late answer" none none "m9" 30 c2Db c2Session
     (by decide) (by decide)).1⟩

/-- C2 counterexample: the concrete session is completed, yet `submit_answer`
grows its log and a second `complete` call succeeds and overwrites the stored
`end_time` (10 becomes 30). -/
theorem c2_counterexample :
    c2Session.status = "completed" ∧
    (submit_answer "s2" "extra" none none "m9" 30 c2Db).1.messages.length =
      c2Db.messages.length + 1 ∧
    (generate_hr_interview_report "s2" 30 (HrAiOutcome.aiError "quota") c2Db).2.isOk = true ∧
    (findSession (generate_hr_interview_report "s2" 30 (HrAiOutcome.aiError "quota") c2Db).1 "s2").map
        (fun s => s.end_time) = some (some 30) ∧
    c2Session.end_time = some 10 ∧ (some 30 ≠ (some 10 : Option Nat)) := by
  refine ⟨by decide, by decide, by decide, by decide, by decide, by decide⟩

/-- Concrete active session with one asked question and no answers. -/
def c3Session : InterviewSessionRec :=
  { session_id := "s3", user_id := "u1", start_time := 0, end_time := none
    difficulty := "medium", topics_covered := [], final_score := none
    final_report := none, status := "active" }

/-- Concrete store holding the zero-answer session. -/
def c3Db : Db :=
  { users := [], resumes := [], sessions := [c3Session]
    messages :=
      [ { message_id := "m1", session_id := "s3", role := "ai", content := "Q1"
          timestamp := 1, confidence_score := none, facial_emotion := none } ] }

/-- Concrete active session with an entirely empty message log. -/
def c3Session4 : InterviewSessionRec :=
  { session_id := "s4", user_id := "u1", start_time := 0, end_time := none
    difficulty := "medium", topics_covered := [], final_score := none
    final_report := none, status := "active" }

/-- Concrete store holding the empty-log session. -/
def c3Db4 : Db :=
  { users := [], resumes := [], sessions := [c3Session4], messages := [] }

/-- C3 (amended): completing with zero answer messages fails without touching
the store in the HR flow — but the failure surfaces as an HTTP 500, not a 400
`InvalidState` — while the technical report endpoint checks only for an empty
message log: before that check it already writes `end_time` onto the session,
and the 404 its body raises is caught by the bare `except Exception` and
surfaced as HTTP 500 `"Failed to generate report: …"`, so the failing session
is not left unchanged and no 400 is returned there either. -/
theorem c3_complete_zero_answers :
    (∀ (sid : String) (now : Nat) (ai : HrAiOutcome) (db : Db) (s : InterviewSessionRec),
      findSession db sid = some s →
      (answersGiven (sessionMessages db sid)).length = 0 →
      complete_hr_interview sid now ai db =
        (db, Except.error
          { code := 500,
            detail := "Failed to complete HR interview: " ++
              "No answers found. Please answer at least one question before generating report." })) ∧
    (∀ (sid : String) (now : Nat) (ai : TechAiOutcome) (db : Db) (s : InterviewSessionRec),
      findSession db sid = some s → s.end_time = none → sessionMessages db sid = [] →
      generate_interview_report sid now ai db =
        (updateSession db sid (fun t => { t with end_time := some now }),
         Except.error
           { code := 500,
             detail := "Failed to generate report: " ++
               httpExceptionStr { code := 404, detail := "No interview data found" } })) := by
  constructor
  · intro sid now ai db s h ha
    unfold complete_hr_interview
    rw [hr_report_no_answers sid now ai db s h ha]
  · intro sid now ai db s h he hm
    exact tech_report_no_messages sid now ai db s h he hm

/-- C3 witness: on the concrete zero-answer store, completing the HR interview
fails and returns the store unchanged. -/
theorem c3_witness :
    (findSession c3Db "s3" = some c3Session ∧
     (answersGiven (sessionMessages c3Db "s3")).length = 0) ∧
    complete_hr_interview "s3" 5 HrAiOutcome.noKey c3Db =
      (c3Db, Except.error
        { code := 500,
          detail := "Failed to complete HR interview: " ++
            "No answers found. Please answer at least one question before generating report." }) :=
  ⟨⟨by decide, by decide⟩,
   c3_complete_zero_answers.1 "s3" 5 HrAiOutcome.noKey c3Db c3Session (by decide) (by decide)⟩

/-- C3 counterexample: the zero-answer HR completion fails with HTTP 500 (not a
400 `InvalidState`), and the technical endpoint on an empty-log session fails
with HTTP 500 (its internal 404 is swallowed by the bare `except Exception`)
after having already written `end_time` — the session record is changed by the
failing call. -/
theorem c3_counterexample :
    (complete_hr_interview "s3" 5 HrAiOutcome.noKey c3Db).2 =
      Except.error
        { code := 500,
          detail := "Failed to complete HR interview: No answers found. Please answer at least one question before generating report." } ∧
    (500 : Nat) ≠ 400 ∧
    c3Session4.end_time = none ∧
    (findSession (generate_interview_report "s4" 7 TechAiOutcome.parseFailure c3Db4).1 "s4").map
        (fun s => s.end_time) = some (some 7) ∧
    (generate_interview_report "s4" 7 TechAiOutcome.parseFailure c3Db4).2 =
      Except.error
        { code := 500, detail := "Failed to generate report: 404: No interview data found" } := by
  refine ⟨by decide, by decide, by decide, by decide, by decide⟩

/-- Concrete resume used for the C7 instances. -/
def c7Resume : ResumeRec :=
  { resume_id := "r7", user_id := "u1", upload_date := 1, job_role := none
    raw_text := "Worked with Python and SQL on data pipelines."
    job_description := none }

/-- Concrete active session with one answered question, plus the resume. -/
def c7Db : Db :=
  { users := [], resumes := [c7Resume]
    sessions :=
      [ { session_id := "s7", user_id := "u1", start_time := 0, end_time := none
          difficulty := "medium", topics_covered := [], final_score := none
          final_report := none, status := "active" } ]
    messages :=
      [ { message_id := "m1", session_id := "s7", role := "ai", content := "Q1"
          timestamp := 1, confidence_score := none, facial_emotion := none }
      , { message_id := "m2", session_id := "s7", role := "user", content := "A1"
          timestamp := 2, confidence_score := none, facial_emotion := none } ] }

/-- C7 (amended): ATS scoring, question generation and HR report synthesis
convert every AI failure into a deterministic fallback value of the success
shape and still answer successfully; the technical report synthesis endpoint,
however, surfaces an AI failure to the caller as an HTTP 500 error. -/
theorem c7_ai_failures_fallback :
    (∀ e : String,
      get_ats_report (AtsOutcome.apiError e) =
        { match_score := some 0, missing_keywords := ["AI Processing Failed"]
          suggestions := ["AI Model failed to generate report. Detail: " ++ e] } ∧
      get_ats_report AtsOutcome.clientInitError =
        { match_score := some 0, missing_keywords := ["AI Service Unavailable"]
          suggestions := ["Please check the backend logs for AI connection errors."] } ∧
      get_ats_report AtsOutcome.otherError =
        { match_score := some 0, missing_keywords := ["Internal Analysis Error"]
          suggestions := ["An unexpected error occurred on the server during AI processing."] }) ∧
    (∀ (sid rid : String) (prev : List String) (mid : String) (now : Nat) (db : Db)
        (r : ResumeRec) (s : InterviewSessionRec),
      db.resumes.find? (fun x => x.resume_id == rid) = some r →
      findSession db sid = some s →
      (generate_question sid rid prev none mid now db).2.isOk = true) ∧
    (∀ (sid : String) (now : Nat) (m : String) (db : Db) (s : InterviewSessionRec),
      findSession db sid = some s →
      (answersGiven (sessionMessages db sid)).length ≠ 0 →
      (generate_hr_interview_report sid now (HrAiOutcome.aiError m) db).2.isOk = true) ∧
    (∀ (sid : String) (now : Nat) (db : Db) (s : InterviewSessionRec),
      findSession db sid = some s → sessionMessages db sid ≠ [] →
      (generate_interview_report sid now TechAiOutcome.parseFailure db).2 =
        Except.error { code := 500, detail := "Failed to parse AI response. Please try again." }) := by
  refine ⟨?_, ?_, ?_, ?_⟩
  · intro e
    exact ⟨rfl, rfl, rfl⟩
  · intro sid rid prev mid now db r s hr hfs
    unfold generate_question
    rw [hr, hfs]
    cases hq : generate_question_fallback (primary_tech r.raw_text (r.job_description.getD ""))
        s.difficulty prev with
    | some q => simp [hq, Except.isOk, Except.toBool]
    | none => simp [hq, Except.isOk, Except.toBool]
  · intro sid now m db s hfs ha
    rw [hr_report_fallback sid now (HrAiOutcome.aiError m) db s hfs ha
      (by intro rd hc; exact HrAiOutcome.noConfusion hc)]
    rfl
  · intro sid now db s hfs hm
    exact tech_report_parseFailure_any sid now db s hfs hm

/-- C7 witness: on the concrete store the question-generation endpoint answers
successfully even though the AI returned nothing. -/
theorem c7_witness :
    (c7Db.resumes.find? (fun x => x.resume_id == "r7") = some c7Resume ∧
     (findSession c7Db "s7").isSome = true) ∧
    (generate_question "s7" "r7" [] none "m9" 3 c7Db).2.isOk = true := by
  refine ⟨⟨by decide, by decide⟩, ?_⟩
  cases hfs : findSession c7Db "s7" with
  | none => exact absurd hfs (by decide)
  | some s =>
      exact c7_ai_failures_fallback.2.1 "s7" "r7" [] "m9" 3 c7Db c7Resume s (by decide) hfs

/-- C7 counterexample: on the concrete store the technical report synthesis
surfaces the AI parse failure to the end user as an HTTP 500 error response
instead of any fallback value. -/
theorem c7_counterexample :
    (generate_interview_report "s7" 3 TechAiOutcome.parseFailure c7Db).2 =
      Except.error { code := 500, detail := "Failed to parse AI response. Please try again." } := by
  decide

/-- Concrete store with five answered HR questions (ten messages). -/
def c8Db : Db :=
  { users := [], resumes := []
    sessions :=
      [ { session_id := "s8", user_id := "u1", start_time := 0, end_time := none
          difficulty := "medium", topics_covered := [], final_score := none
          final_report := none, status := "active" } ]
    messages :=
      [ { message_id := "m1", session_id := "s8", role := "ai", content := "Q1"
          timestamp := 1, confidence_score := none, facial_emotion := none }
      , { message_id := "m2", session_id := "s8", role := "user", content := "A1"
          timestamp := 2, confidence_score := none, facial_emotion := none }
      , { message_id := "m3", session_id := "s8", role := "ai", content := "Q2"
          timestamp := 3, confidence_score := none, facial_emotion := none }
      , { message_id := "m4", session_id := "s8", role := "user", content := "A2"
          timestamp := 4, confidence_score := none, facial_emotion := none }
      , { message_id := "m5", session_id := "s8", role := "ai", content := "Q3"
          timestamp := 5, confidence_score := none, facial_emotion := none }
      , { message_id := "m6", session_id := "s8", role := "user", content := "A3"
          timestamp := 6, confidence_score := none, facial_emotion := none }
      , { message_id := "m7", session_id := "s8", role := "ai", content := "Q4"
          timestamp := 7, confidence_score := none, facial_emotion := none }
      , { message_id := "m8", session_id := "s8", role := "user", content := "A4"
          timestamp := 8, confidence_score := none, facial_emotion := none }
      , { message_id := "m9", session_id := "s8", role := "ai", content := "Q5"
          timestamp := 9, confidence_score := none, facial_emotion := none }
      , { message_id := "m10", session_id := "s8", role := "user", content := "A5"
          timestamp := 10, confidence_score := none, facial_emotion := none } ] }

/-- C8 (amended): the canned no-improvement phrase for scores of 85 and above
is only an instruction inside the AI prompt; in the fallback report every
`areas_to_improve` entry comes from the rotating template list, independent of
the per-question score, and none of the templates equals the canned phrase. -/
theorem c8_canned_phrase_not_enforced :
    ∀ (score : Int) (qa : List (String × String)) (i : Nat), i < qa.length →
    ((buildQuestionFeedback score 0 qa)[i]?).map (fun f => f.areas_to_improve) =
      some ((feedback_template i).areas_to_improve) ∧
    (∀ tpl ∈ feedback_templates, tpl.areas_to_improve ≠ canned_no_improvement) := by
  intro score qa i h
  constructor
  · rw [buildQuestionFeedback_getElem score qa 0 i h]
    simp
  · decide

/-- C8 witness: the first feedback entry of a one-pair fallback report takes
its `areas_to_improve` from the first rotating template. -/
theorem c8_witness :
    (0 < ([("q", "a")] : List (String × String)).length) ∧
    ((buildQuestionFeedback 85 0 [("q", "a")])[0]?).map (fun f => f.areas_to_improve) =
      some ((feedback_template 0).areas_to_improve) :=
  ⟨by decide, (c8_canned_phrase_not_enforced 85 [("q", "a")] 0 (by decide)).1⟩

/-- C8 counterexample: the fallback HR report for five answered questions
contains entries with score 85 whose `areas_to_improve` is a rotating template
critique, not the canned no-improvement phrase. -/
theorem c8_counterexample :
    ((generate_hr_interview_report "s8" 99 HrAiOutcome.noKey c8Db).2.toOption.map
        (fun r => r.question_by_question_feedback.map
          (fun f => (f.score, f.areas_to_improve == canned_no_improvement))))
      = some [(85, false), (80, false), (75, false), (85, false), (80, false)] := by
  decide

/-- Concrete store with a user but no resumes. -/
def c9Db : Db :=
  { users := [{ user_id := "u1", email := "u1@x", first_name := none, last_name := none }]
    resumes := [], sessions := [], messages := [] }

/-- C9 (amended): creating a session for a user without a resume (or with an
absent referenced resume) fails and creates no session, but the failure is an
HTTP 400 on the technical endpoint and an HTTP 500 on the HR endpoint — not a
404 NotFound. -/
theorem c9_create_without_resume :
    (∀ (uid diff : String) (topics : List String) (nsid : String) (now : Nat) (db : Db),
      latest_resume db.resumes uid = none →
      create_interview_session uid diff topics nsid now db =
        (ensure_user_exists db uid ("user_" ++ uid ++ "@clerk.dev"),
         Except.error { code := 400, detail := "No resume found for user. Please upload a resume first." }) ∧
      (create_interview_session uid diff topics nsid now db).1.sessions = db.sessions) ∧
    (∀ (uid rid nsid : String) (now : Nat) (db : Db),
      db.resumes.find? (fun r => r.resume_id == rid) = none →
      create_hr_interview uid rid nsid now db =
        (db, Except.error
          { code := 500,
            detail := "Failed to create HR interview: " ++
              "Failed to create HR interview session: Resume not found" }) ∧
      (create_hr_interview uid rid nsid now db).1.sessions = db.sessions) := by
  constructor
  · intro uid diff topics nsid now db h
    have e : create_interview_session uid diff topics nsid now db =
        (ensure_user_exists db uid ("user_" ++ uid ++ "@clerk.dev"),
         Except.error { code := 400, detail := "No resume found for user. Please upload a resume first." }) := by
      simp only [create_interview_session]
      rw [resumes_ensure_user db uid ("user_" ++ uid ++ "@clerk.dev"), h]
    exact ⟨e, by rw [e]; exact sessions_ensure_user db uid ("user_" ++ uid ++ "@clerk.dev")⟩
  · intro uid rid nsid now db h
    have e : create_hr_interview_session uid rid nsid now db =
        (db, Except.error "Failed to create HR interview session: Resume not found") := by
      unfold create_hr_interview_session
      rw [h]
    have e2 : create_hr_interview uid rid nsid now db =
        (db, Except.error
          { code := 500,
            detail := "Failed to create HR interview: " ++
              "Failed to create HR interview session: Resume not found" }) := by
      unfold create_hr_interview
      rw [e]
    exact ⟨e2, by rw [e2]⟩

/-- C9 witness: on the concrete resume-less store, the technical create fails
with the 400 response and no session row is added. -/
theorem c9_witness :
    (latest_resume c9Db.resumes "u1" = none) ∧
    create_interview_session "u1" "medium" [] "n1" 0 c9Db =
      (ensure_user_exists c9Db "u1" ("user_" ++ "u1" ++ "@clerk.dev"),
       Except.error { code := 400, detail := "No resume found for user. Please upload a resume first." }) :=
  ⟨by decide,
   (c9_create_without_resume.1 "u1" "medium" [] "n1" 0 c9Db (by decide)).1⟩

/-- C9 counterexample: the concrete failures carry HTTP 400 (technical) and 500
(HR), neither of which is the claimed 404 NotFound; no session is created. -/
theorem c9_counterexample :
    (create_interview_session "u1" "medium" [] "n1" 0 c9Db).2 =
      Except.error { code := 400, detail := "No resume found for user. Please upload a resume first." } ∧
    (400 : Nat) ≠ 404 ∧
    (create_interview_session "u1" "medium" [] "n1" 0 c9Db).1.sessions = [] ∧
    (create_hr_interview "u1" "r9" "n2" 0 c9Db).2 =
      Except.error
        { code := 500,
          detail := "Failed to create HR interview: Failed to create HR interview session: Resume not found" } ∧
    (500 : Nat) ≠ 404 ∧
    (create_hr_interview "u1" "r9" "n2" 0 c9Db).1.sessions = [] := by
  refine ⟨by decide, by decide, by decide, by decide, by decide, by decide⟩
